import Mathlib

/-!
Shallow embedding of the ollama-proxy translation gateway core:
`converter.py` (record shaping), `config.py` (hot-reloadable provider store)
and `api.py` (router, option mapper, streaming pumps).

External effects are made explicit parameters: the wall clock enters as a
timestamp string `ts` and as the elapsed duration in seconds (a rational,
standing for the Python float `end_time - start_time`); the upstream
capability's lazy sequence enters as the list of elements it produced
together with how it ended (normally, or by raising with a message).
Python dicts are modelled as association lists with insert-overwrite
semantics; a JSON value absent from a dict is `none`.
-/

set_option autoImplicit false

namespace OllamaProxy

/-! ### Python dict primitives (insertion-ordered, insert overwrites in place) -/

/-- Lookup in an insertion-ordered dict: first (unique) binding of the key. -/
def dictGet {α : Type} (l : List (String × α)) (k : String) : Option α :=
  (l.find? (fun p => p.1 == k)).map (·.2)

/-- Python dict assignment `d[k] = v`: overwrite in place if the key exists,
else append at the end (insertion order preserved). -/
def dictInsert {α : Type} (l : List (String × α)) (k : String) (v : α) :
    List (String × α) :=
  if l.any (fun p => p.1 == k) then
    l.map (fun p => if p.1 == k then (k, v) else p)
  else l ++ [(k, v)]

/-- Python truthiness of an optional list (`None` and `[]` are falsy). -/
def truthyList {α : Type} : Option (List α) → Bool
  | none => false
  | some l => !l.isEmpty

/-! ### config.py — data model -/

/-- `config.py` `LiteLLMConfig` dataclass. -/
structure LiteLLMConfig where
  provider : String
  model_name : String
  api_key : Option String := none
  base_url : Option String := none
  reasoning_effort : Option String := none
  thinking_budget : Option Int := none
  additional_params : List (String × String) := []
deriving DecidableEq, Repr

/-- One element of a provider's `"models"` array in `providers.json`. -/
structure FileModelEntry where
  name : String
  model_name : String
  reasoning_effort : Option String := none
  thinking_budget : Option Int := none
deriving DecidableEq, Repr

/-- One provider object in `providers.json` (keyed by provider id). -/
structure FileProviderConfig where
  provider : Option String := none
  api_key : Option String := none
  base_url : Option String := none
  additional_params : List (String × String) := []
  models : List FileModelEntry := []
deriving DecidableEq, Repr

/-- The parsed `providers.json` document: an ordered dict of provider id to
provider object. -/
abbrev ProvidersData := List (String × FileProviderConfig)

/-- The observable state of the backing file at reload time: absent,
present but not valid JSON, or successfully parsed. -/
inductive ProvidersFile where
  | missing
  | malformed
  | parsed (data : ProvidersData)
deriving DecidableEq, Repr

/-- The `LiteLLMConfig` built by `reload_providers` for one model entry of one
provider object (`config.py` lines 124-144). -/
def entryFromFile (provider_id : String) (cfg : FileProviderConfig)
    (m : FileModelEntry) : LiteLLMConfig :=
  { provider := cfg.provider.getD provider_id
    model_name := m.model_name
    api_key := cfg.api_key
    base_url := cfg.base_url
    reasoning_effort := m.reasoning_effort
    thinking_budget := m.thinking_budget
    additional_params := cfg.additional_params }

/-- The `new_providers` dict built by the nested loops of `reload_providers`. -/
def buildProviders (data : ProvidersData) : List (String × LiteLLMConfig) :=
  data.foldl
    (fun acc pc =>
      pc.2.models.foldl
        (fun acc2 m => dictInsert acc2 m.name (entryFromFile pc.1 pc.2 m)) acc)
    []

/-- `ConfigManager`'s provider snapshot (the part the claims read). -/
structure ConfigState where
  providers : List (String × LiteLLMConfig)
deriving DecidableEq, Repr

/-- `ConfigManager.reload_providers`: a missing or unparseable file leaves the
snapshot untouched (warning only); a parsed file replaces it wholesale. -/
def reload_providers (st : ConfigState) (file : ProvidersFile) : ConfigState :=
  match file with
  | .missing => st
  | .malformed => st
  | .parsed data => { providers := buildProviders data }

/-- `ConfigManager.get_litellm_config`. -/
def get_litellm_config (st : ConfigState) (ollama_name : String) :
    Option LiteLLMConfig :=
  dictGet st.providers ollama_name

/-- `ConfigManager.list_models`. -/
def list_models (st : ConfigState) : List String :=
  st.providers.map (·.1)

/-! ### converter.py -/

/-- `ns_from_seconds`: Python `int(seconds * 1e9)` truncates toward zero. -/
def ns_from_seconds (seconds : ℚ) : Int :=
  Int.tdiv (seconds * 1000000000).num ((seconds * 1000000000).den : Int)

/-- Tool-call fragments are passed through untranslated; their payload is
irrelevant to the gateway, so they are carried as an abstract token. -/
abbrev ToolCall := String

/-- One generate-endpoint output record (buffered response or stream chunk).
Fields emitted only in terminal records are `Option`s; `none` means the key
is absent from the JSON object. -/
structure GenerateRecord where
  model : String
  created_at : String
  response : String
  done : Bool
  done_reason : Option String
  context : Option (List Int)
  total_duration : Option Int
  load_duration : Option Int
  prompt_eval_count : Option Int
  prompt_eval_duration : Option Int
  eval_count : Option Int
  eval_duration : Option Int
deriving DecidableEq, Repr

/-- `to_ollama_generate_response` (the clock enters as `ts`). -/
def to_ollama_generate_response (ts : String) (content : String)
    (model_name : String) (duration_seconds : ℚ)
    (prompt_tokens : Int := 0) (completion_tokens : Int := 0) :
    GenerateRecord :=
  { model := model_name
    created_at := ts
    response := content
    done := true
    done_reason := some "stop"
    context := some []
    total_duration := some (ns_from_seconds duration_seconds)
    load_duration := some 0
    prompt_eval_count := some prompt_tokens
    prompt_eval_duration := some 0
    eval_count := some completion_tokens
    eval_duration := some 0 }

/-- `to_ollama_generate_stream_chunk`. -/
def to_ollama_generate_stream_chunk (ts : String) (content : String)
    (model_name : String) (done : Bool := false) : GenerateRecord :=
  { model := model_name
    created_at := ts
    response := content
    done := done
    done_reason := if done then some "stop" else none
    context := if done then some [] else none
    total_duration := if done then some 0 else none
    load_duration := if done then some 0 else none
    prompt_eval_count := if done then some 0 else none
    prompt_eval_duration := if done then some 0 else none
    eval_count := if done then some 0 else none
    eval_duration := if done then some 0 else none }

/-- The `"message"` object of a chat-endpoint record. `images` is always
`null` in the source. -/
structure ChatMessageOut where
  role : String
  content : String
  images : Option (List String)
  tool_calls : List ToolCall
deriving DecidableEq, Repr

/-- One chat-endpoint output record (buffered response or stream chunk). -/
structure ChatRecord where
  model : String
  created_at : String
  message : ChatMessageOut
  done : Bool
  done_reason : Option String
  total_duration : Option Int
  load_duration : Option Int
  prompt_eval_count : Option Int
  prompt_eval_duration : Option Int
  eval_count : Option Int
  eval_duration : Option Int
deriving DecidableEq, Repr

/-- `to_ollama_chat_response` (`tool_calls or []` maps `None` to `[]`). -/
def to_ollama_chat_response (ts : String) (content : String)
    (model_name : String) (duration_seconds : ℚ)
    (prompt_tokens : Int := 0) (completion_tokens : Int := 0)
    (tool_calls : Option (List ToolCall) := none) : ChatRecord :=
  { model := model_name
    created_at := ts
    message :=
      { role := "assistant"
        content := content
        images := none
        tool_calls := tool_calls.getD [] }
    done := true
    done_reason := some "stop"
    total_duration := some (ns_from_seconds duration_seconds)
    load_duration := some 0
    prompt_eval_count := some prompt_tokens
    prompt_eval_duration := some 0
    eval_count := some completion_tokens
    eval_duration := some 0 }

/-- `to_ollama_chat_stream_chunk`. -/
def to_ollama_chat_stream_chunk (ts : String) (content : String)
    (model_name : String) (done : Bool := false)
    (tool_calls : Option (List ToolCall) := none) : ChatRecord :=
  { model := model_name
    created_at := ts
    message :=
      { role := "assistant"
        content := content
        images := none
        tool_calls := tool_calls.getD [] }
    done := done
    done_reason := if done then some "stop" else none
    total_duration := if done then some 0 else none
    load_duration := if done then some 0 else none
    prompt_eval_count := if done then some 0 else none
    prompt_eval_duration := if done then some 0 else none
    eval_count := if done then some 0 else none
    eval_duration := if done then some 0 else none }

/-! ### api.py — streaming pumps

An upstream lazy sequence is modelled by the list of elements it produced
before ending, plus how it ended: `ok` (exhausted normally) or
`failed msg` (the iterator, or the initial `acompletion` call itself,
raised an exception rendered as `msg`; with no elements produced the list
is empty). -/

/-- How the upstream lazy sequence ended. -/
inductive StreamOutcome where
  | ok
  | failed (msg : String)
deriving DecidableEq, Repr

/-- One iteration of `_stream_generate`'s loop: the element's content
(`none` covers both a missing delta and a `null` content field) yields a
non-terminal record when truthy, nothing otherwise. -/
def stream_generate_emit (ts : String) (model_name : String)
    (c : Option String) : Option GenerateRecord :=
  let content := c.getD ""
  if content ≠ "" then
    some (to_ollama_generate_stream_chunk ts content model_name false)
  else none

/-- `_stream_generate`: the full record sequence the pump yields for one
request, given the upstream elements and how the upstream ended. On normal
exhaustion the terminal record carries the measured elapsed seconds; on
failure it carries the error text and zero duration. The pump never raises:
its result is always a plain list. -/
def stream_generate (ts : String) (model_name : String) (elapsed : ℚ)
    (chunks : List (Option String)) (outcome : StreamOutcome) :
    List GenerateRecord :=
  let emitted := chunks.filterMap (stream_generate_emit ts model_name)
  match outcome with
  | .ok => emitted ++ [to_ollama_generate_response ts "" model_name elapsed 0 0]
  | .failed msg =>
      emitted ++
        [to_ollama_generate_response ts ("Error processing request: " ++ msg)
          model_name 0 0 0]

/-- One element of the upstream chat stream: optional text content and
optional tool-call fragments. -/
structure ChatDelta where
  content : Option String := none
  tool_calls : Option (List ToolCall) := none
deriving DecidableEq, Repr

/-- One iteration of `_stream_chat`'s loop: emits a non-terminal record when
the content or the tool-call list is truthy, nothing otherwise. -/
def stream_chat_emit (ts : String) (model_name : String) (d : ChatDelta) :
    Option ChatRecord :=
  let content := d.content.getD ""
  if content ≠ "" ∨ truthyList d.tool_calls then
    some (to_ollama_chat_stream_chunk ts content model_name false d.tool_calls)
  else none

/-- `_stream_chat`: the full record sequence the pump yields for one request. -/
def stream_chat (ts : String) (model_name : String) (elapsed : ℚ)
    (chunks : List ChatDelta) (outcome : StreamOutcome) : List ChatRecord :=
  let emitted := chunks.filterMap (stream_chat_emit ts model_name)
  match outcome with
  | .ok => emitted ++ [to_ollama_chat_response ts "" model_name elapsed 0 0 none]
  | .failed msg =>
      emitted ++
        [to_ollama_chat_response ts ("Error processing request: " ++ msg)
          model_name 0 0 0 none]

/-- Buffered `generate` success path (lines 145-156): the upstream's single
result enters as its optional content (`content or ""`) and usage counters
(`usage.get(_, 0)`). -/
def generate_buffered (ts : String) (model_name : String) (elapsed : ℚ)
    (content : Option String) (prompt_tokens completion_tokens : Int) :
    GenerateRecord :=
  to_ollama_generate_response ts (content.getD "") model_name elapsed
    prompt_tokens completion_tokens

/-! ### api.py — option mapper and router -/

/-- The `"thinking"` parameter object built by `_apply_config_options`. -/
structure ThinkingParam where
  type : String
  budget_tokens : Int
deriving DecidableEq, Repr

/-- Tool definitions are forwarded untranslated; carried as abstract tokens. -/
abbrev ToolDef := String

/-- The LiteLLM keyword-argument dict the router builds (`params`/`options`
in the source); `none` means the key is absent. Numeric option values are
rationals (Python floats/ints). -/
structure LiteLLMParams where
  temperature : Option ℚ := none
  max_tokens : Option ℚ := none
  top_p : Option ℚ := none
  response_format : Option String := none
  tools : Option (List ToolDef) := none
  reasoning_effort : Option String := none
  thinking : Option ThinkingParam := none
deriving DecidableEq, Repr

/-- `_build_options`: copies `temperature`, `num_predict` (as `max_tokens`)
and `top_p` from the request's `options` dict when present; every other key
is ignored. -/
def build_options_fn (options : List (String × ℚ)) : LiteLLMParams :=
  { temperature := dictGet options "temperature"
    max_tokens := dictGet options "num_predict"
    top_p := dictGet options "top_p" }

/-- `_apply_config_options`: overlays the resolved entry's truthy
`reasoning_effort` (skipped when `None` or `""`) and truthy
`thinking_budget` (skipped when `None` or `0`) onto the params. -/
def apply_config_options (params : LiteLLMParams) (cfg : LiteLLMConfig) :
    LiteLLMParams :=
  let p1 :=
    match cfg.reasoning_effort with
    | some s => if s ≠ "" then { params with reasoning_effort := some s } else params
    | none => params
  match cfg.thinking_budget with
  | some b => if b ≠ 0 then { p1 with thinking := some ⟨"enabled", b⟩ } else p1
  | none => p1

/-- Everything the router hands to `litellm.acompletion` apart from the
stream flag. -/
structure UpstreamCall where
  model : String
  messages : List (String × String)
  api_key : Option String
  base_url : Option String
  options : LiteLLMParams
deriving DecidableEq, Repr

/-- The router's per-request decision: a structured error response (body is
the JSON object as key-value pairs, plus the HTTP status), or an upstream
invocation in streaming or buffered mode. -/
inductive RouterResult where
  | errorResponse (body : List (String × String)) (status : Nat)
  | streamCall (call : UpstreamCall)
  | bufferedCall (call : UpstreamCall)
deriving DecidableEq, Repr

/-- The fully-qualified LiteLLM model id (`api.py` lines 122-126 / 253-257):
provider tag, with `custom_openai` rewritten to `openai`, then `/`, then the
upstream model name. -/
def qualified_model (cfg : LiteLLMConfig) : String :=
  let litellm_provider :=
    if cfg.provider == "custom_openai" then "openai" else cfg.provider
  litellm_provider ++ "/" ++ cfg.model_name

/-- Parsed body of a `/api/generate` request (the fields the router reads,
with the source's `body.get` defaults; `stream := none` means the key was
absent). -/
structure GenerateBody where
  model : String := ""
  prompt : String := ""
  stream : Option Bool := none
  system : String := ""
  format : Option String := none
  options : List (String × ℚ) := []
deriving Repr

/-- Parsed body of a `/api/chat` request. -/
structure ChatBody where
  model : String := ""
  messages : List (String × String) := []
  stream : Option Bool := none
  format : Option String := none
  tools : Option (List ToolDef) := none
  options : List (String × ℚ) := []
deriving Repr

/-- The `generate` endpoint up to the dispatch decision: resolve the model
(`404` error object on failure, no upstream call), build messages
(optional system turn first, then the user turn), build options
(`response_format` only when `format == "json"`, then the config overlay),
qualify the model id, and choose the path from the stream flag
(default `True`). -/
def generate_route (st : ConfigState) (body : GenerateBody) : RouterResult :=
  let stream := body.stream.getD true
  match get_litellm_config st body.model with
  | none =>
      .errorResponse [("error", "model '" ++ body.model ++ "' not found")] 404
  | some cfg =>
      let messages :=
        (if body.system ≠ "" then [("system", body.system)] else []) ++
          [("user", body.prompt)]
      let params0 := build_options_fn body.options
      let params1 :=
        if body.format == some "json" then
          { params0 with response_format := some "json_object" }
        else params0
      let params := apply_config_options params1 cfg
      let call : UpstreamCall :=
        ⟨qualified_model cfg, messages, cfg.api_key, cfg.base_url, params⟩
      if stream then .streamCall call else .bufferedCall call

/-- The `chat` endpoint up to the dispatch decision: like `generate_route`
but with caller-supplied messages and `tools` attached only when truthy. -/
def chat_route (st : ConfigState) (body : ChatBody) : RouterResult :=
  let stream := body.stream.getD true
  match get_litellm_config st body.model with
  | none =>
      .errorResponse [("error", "model '" ++ body.model ++ "' not found")] 404
  | some cfg =>
      let params0 := build_options_fn body.options
      let params1 :=
        if body.format == some "json" then
          { params0 with response_format := some "json_object" }
        else params0
      let params2 :=
        if truthyList body.tools then { params1 with tools := body.tools }
        else params1
      let params := apply_config_options params2 cfg
      let call : UpstreamCall :=
        ⟨qualified_model cfg, body.messages, cfg.api_key, cfg.base_url, params⟩
      if stream then .streamCall call else .bufferedCall call

/-! ### Helper definitions and lemmas for the claim statements -/

/-- The model id a router result hands to the upstream capability, if any. -/
def callModel : RouterResult → Option String
  | .errorResponse _ _ => none
  | .streamCall c => some c.model
  | .bufferedCall c => some c.model

/-- The options a router result hands to the upstream capability, if any. -/
def callOptions : RouterResult → Option LiteLLMParams
  | .errorResponse _ _ => none
  | .streamCall c => some c.options
  | .bufferedCall c => some c.options

/-- Whether a router result takes the streaming path. -/
def isStream : RouterResult → Bool
  | .streamCall _ => true
  | _ => false

/-- Whether a router result takes the buffered path. -/
def isBuffered : RouterResult → Bool
  | .bufferedCall _ => true
  | _ => false

/-- A sample entry pointing at a custom OpenAI-compatible endpoint. -/
def sampleCustom : LiteLLMConfig :=
  { provider := "custom_openai", model_name := "gpt-x" }

/-- A sample entry with an ordinary provider tag. -/
def sampleOpenai : LiteLLMConfig :=
  { provider := "openai", model_name := "gpt-x" }

/-- Every record the generate pump's loop emits is a non-terminal record. -/
lemma generate_emitted_done_false (ts m : String) (chunks : List (Option String))
    (r : GenerateRecord) (hr : r ∈ chunks.filterMap (stream_generate_emit ts m)) :
    r.done = false := by
  rcases List.mem_filterMap.mp hr with ⟨c, _, he⟩
  simp only [stream_generate_emit] at he
  split at he
  · injection he with he
    rw [← he]
    rfl
  · exact Option.noConfusion he

/-- Every record the chat pump's loop emits is a non-terminal record. -/
lemma chat_emitted_done_false (ts m : String) (chunks : List ChatDelta)
    (r : ChatRecord) (hr : r ∈ chunks.filterMap (stream_chat_emit ts m)) :
    r.done = false := by
  rcases List.mem_filterMap.mp hr with ⟨d, _, he⟩
  simp only [stream_chat_emit] at he
  split at he
  · injection he with he
    rw [← he]
    rfl
  · exact Option.noConfusion he

/-! ### Claims -/

/-- C5: a reload that finds the backing file malformed (unparseable) leaves
the provider snapshot exactly unchanged: the state is the same, so
`list_models` returns the same sequence and every `get_litellm_config`
lookup the same result. The reload is a total function of the observed file
state, so it never raises to its caller. -/
theorem reload_malformed_keeps_snapshot (st : ConfigState) :
    reload_providers st .malformed = st ∧
    list_models (reload_providers st .malformed) = list_models st ∧
    ∀ n, get_litellm_config (reload_providers st .malformed) n =
      get_litellm_config st n :=
  ⟨rfl, rfl, fun _ => rfl⟩

/-- C7: a generate or chat request whose model name does not resolve gets a
structured error object with an `error` field and status 404, and the
router's result is never an upstream invocation. -/
theorem unresolved_model_fails_fast (st : ConfigState) (gbody : GenerateBody)
    (cbody : ChatBody)
    (hg : get_litellm_config st gbody.model = none)
    (hc : get_litellm_config st cbody.model = none) :
    generate_route st gbody =
      .errorResponse [("error", "model '" ++ gbody.model ++ "' not found")] 404 ∧
    chat_route st cbody =
      .errorResponse [("error", "model '" ++ cbody.model ++ "' not found")] 404 ∧
    (∀ call, generate_route st gbody ≠ .streamCall call ∧
      generate_route st gbody ≠ .bufferedCall call) ∧
    (∀ call, chat_route st cbody ≠ .streamCall call ∧
      chat_route st cbody ≠ .bufferedCall call) := by
  refine ⟨?_, ?_, ?_, ?_⟩ <;> simp [generate_route, chat_route, hg, hc]

/-- Closed instance of C7: the empty store resolves nothing. -/
theorem unresolved_model_fails_fast_witness :
    generate_route ⟨[]⟩ { model := "m1" } =
      .errorResponse [("error", "model '" ++ "m1" ++ "' not found")] 404 :=
  (unresolved_model_fails_fast ⟨[]⟩ { model := "m1" } { model := "m1" }
    rfl rfl).1

/-- C8: on both endpoints, the model id handed to the upstream capability is
the normalized provider tag (tag `custom_openai` becomes `openai`, any other
tag is used unchanged), then `/`, then the entry's upstream model name. -/
theorem qualified_model_id (st : ConfigState) (gbody : GenerateBody)
    (cbody : ChatBody) (cfg cfg2 : LiteLLMConfig)
    (hg : get_litellm_config st gbody.model = some cfg)
    (hc : get_litellm_config st cbody.model = some cfg2) :
    callModel (generate_route st gbody) =
      some ((if cfg.provider = "custom_openai" then "openai" else cfg.provider)
        ++ "/" ++ cfg.model_name) ∧
    callModel (chat_route st cbody) =
      some ((if cfg2.provider = "custom_openai" then "openai" else cfg2.provider)
        ++ "/" ++ cfg2.model_name) := by
  constructor <;>
    · simp only [generate_route, chat_route, hg, hc]
      split <;> simp [callModel, qualified_model]

/-- Closed instance of C8, at a `custom_openai` entry. -/
theorem qualified_model_id_witness :
    callModel (generate_route ⟨[("m1", sampleCustom)]⟩ { model := "m1" }) =
      some ((if sampleCustom.provider = "custom_openai" then "openai"
        else sampleCustom.provider) ++ "/" ++ sampleCustom.model_name) :=
  (qualified_model_id ⟨[("m1", sampleCustom)]⟩
      { model := "m1" } { model := "m1" } sampleCustom sampleCustom rfl rfl).1

/-- C10: a body that omits the stream flag takes the streaming path (the
default is `True`), a body with `stream=true` takes the streaming path, and
only `stream=false` takes the buffered path — on both endpoints. -/
theorem stream_defaults_to_true (st : ConfigState) (gbody : GenerateBody)
    (cbody : ChatBody) (cfg cfg2 : LiteLLMConfig)
    (hg : get_litellm_config st gbody.model = some cfg)
    (hc : get_litellm_config st cbody.model = some cfg2) :
    ((gbody.stream = none ∨ gbody.stream = some true) →
      isStream (generate_route st gbody) = true) ∧
    (gbody.stream = some false →
      isBuffered (generate_route st gbody) = true) ∧
    ((cbody.stream = none ∨ cbody.stream = some true) →
      isStream (chat_route st cbody) = true) ∧
    (cbody.stream = some false →
      isBuffered (chat_route st cbody) = true) := by
  refine ⟨fun h => ?_, fun h => ?_, fun h => ?_, fun h => ?_⟩ <;>
    first
      | (rcases h with h | h <;>
          simp [generate_route, chat_route, hg, hc, h, isStream, isBuffered])
      | simp [generate_route, chat_route, hg, hc, h, isStream, isBuffered]

/-- C3: upstream deltas `"Hel"` then `"lo"` with a normal end produce
exactly the two non-terminal records with those texts in order, then one
terminal record with empty text and `done=true`; and an upstream element
whose text delta is empty (and, on the chat pump, whose tool-call delta is
also empty) produces no record at all, wherever it occurs. -/
theorem stream_exact_records_and_empty_skip (ts m : String) (el : ℚ)
    (o : StreamOutcome) (xs ys : List (Option String)) (c : Option String)
    (hc : c.getD "" = "")
    (o2 : StreamOutcome) (xs2 ys2 : List ChatDelta) (d : ChatDelta)
    (hd : d.content.getD "" = "") (hd2 : truthyList d.tool_calls = false) :
    (stream_generate ts m el [some "Hel", some "lo"] .ok).map
        (fun r => (r.response, r.done)) =
      [("Hel", false), ("lo", false), ("", true)] ∧
    stream_generate ts m el (xs ++ c :: ys) o =
      stream_generate ts m el (xs ++ ys) o ∧
    stream_chat ts m el (xs2 ++ d :: ys2) o2 =
      stream_chat ts m el (xs2 ++ ys2) o2 := by
  have h1 : stream_generate_emit ts m c = none := by
    simp [stream_generate_emit, hc]
  have h2 : stream_chat_emit ts m d = none := by
    simp [stream_chat_emit, hd, hd2]
  refine ⟨rfl, ?_, ?_⟩
  · cases o <;>
      simp [stream_generate, List.filterMap_append, List.filterMap_cons, h1]
  · cases o2 <;>
      simp [stream_chat, List.filterMap_append, List.filterMap_cons, h2]

/-- Closed instance of C3: the concrete two-delta run, an interleaved empty
generate delta, and a chat delta that is empty on both axes. -/
theorem stream_exact_records_and_empty_skip_witness :
    (stream_generate "t" "m" 0 [some "Hel", some "lo"] .ok).map
        (fun r => (r.response, r.done)) =
      [("Hel", false), ("lo", false), ("", true)] ∧
    stream_generate "t" "m" 0 ([some "Hel"] ++ none :: [some "lo"]) .ok =
      stream_generate "t" "m" 0 ([some "Hel"] ++ [some "lo"]) .ok ∧
    stream_chat "t" "m" 0 ([] ++ (⟨some "", some []⟩ : ChatDelta) :: []) .ok =
      stream_chat "t" "m" 0 ([] ++ []) .ok :=
  stream_exact_records_and_empty_skip "t" "m" 0 .ok [some "Hel"] [some "lo"]
    none rfl .ok [] [] ⟨some "", some []⟩ rfl rfl

/-- C1: when the upstream sequence fails at any point (also before any
element), the pump still returns a plain record list — no transport-level
error — consisting of exactly the non-terminal records it had already
emitted (the same ones a normal run over the same elements emits), then
exactly one terminal record whose text carries the error description and
whose done flag is true, and nothing after it. -/
theorem stream_failure_degraded_success (ts m : String) (el : ℚ) (msg : String)
    (chunks : List (Option String)) (cchunks : List ChatDelta) :
    ((stream_generate ts m el chunks (.failed msg)).dropLast =
        (stream_generate ts m el chunks .ok).dropLast ∧
      (∀ r ∈ (stream_generate ts m el chunks (.failed msg)).dropLast,
        r.done = false) ∧
      ((stream_generate ts m el chunks (.failed msg)).filter
          (fun r => r.done)).length = 1 ∧
      (stream_generate ts m el chunks (.failed msg)).getLast?.map
          (fun r => (r.response, r.done)) =
        some ("Error processing request: " ++ msg, true)) ∧
    ((stream_chat ts m el cchunks (.failed msg)).dropLast =
        (stream_chat ts m el cchunks .ok).dropLast ∧
      (∀ r ∈ (stream_chat ts m el cchunks (.failed msg)).dropLast,
        r.done = false) ∧
      ((stream_chat ts m el cchunks (.failed msg)).filter
          (fun r => r.done)).length = 1 ∧
      (stream_chat ts m el cchunks (.failed msg)).getLast?.map
          (fun r => (r.message.content, r.done)) =
        some ("Error processing request: " ++ msg, true)) := by
  have hgnil : (chunks.filterMap (stream_generate_emit ts m)).filter
      (fun r => r.done) = [] :=
    List.filter_eq_nil_iff.mpr (fun r hr => by
      simp [generate_emitted_done_false ts m chunks r hr])
  have hcnil : (cchunks.filterMap (stream_chat_emit ts m)).filter
      (fun r => r.done) = [] :=
    List.filter_eq_nil_iff.mpr (fun r hr => by
      simp [chat_emitted_done_false ts m cchunks r hr])
  refine ⟨⟨?_, ?_, ?_, ?_⟩, ⟨?_, ?_, ?_, ?_⟩⟩
  · simp [stream_generate, List.dropLast_concat]
  · intro r hr
    simp only [stream_generate, List.dropLast_concat] at hr
    exact generate_emitted_done_false ts m chunks r hr
  · simp [stream_generate, List.filter_append, hgnil,
      to_ollama_generate_response]
  · simp [stream_generate, List.getLast?_concat, to_ollama_generate_response]
  · simp [stream_chat, List.dropLast_concat]
  · intro r hr
    simp only [stream_chat, List.dropLast_concat] at hr
    exact chat_emitted_done_false ts m cchunks r hr
  · simp [stream_chat, List.filter_append, hcnil, to_ollama_chat_response]
  · simp [stream_chat, List.getLast?_concat, to_ollama_chat_response]

/-- C2 counterexample: a streamed generate run over one delta, with two
seconds elapsed between pump start and upstream exhaustion, ends in a
terminal record whose `total_duration` is 2000000000 ns, not zero — so the
terminal-shape fields of the streamed terminal record are not all zero. -/
theorem streamed_terminal_zero_counterexample :
    (stream_generate "t" "m" 2 [some "hi"] .ok).getLast?.map
        (fun r => (r.done, r.total_duration)) = some (true, some 2000000000) ∧
    ¬ (∀ r ∈ stream_generate "t" "m" 2 [some "hi"] .ok,
        r.done = true → r.total_duration = some 0) := by
  have h2 : ns_from_seconds 2 = 2000000000 := by norm_num [ns_from_seconds]
  constructor
  · simp [stream_generate, List.getLast?_concat, to_ollama_generate_response,
      h2]
  · intro h
    have hmem : to_ollama_generate_response "t" "" "m" 2 0 0 ∈
        stream_generate "t" "m" 2 [some "hi"] .ok := by
      simp [stream_generate]
    have := h _ hmem rfl
    simp [to_ollama_generate_response, h2] at this

/-- C2 as amended: in the streamed terminal record the usage counters
(`prompt_eval_count`, `eval_count`) are always zero, on both endpoints and
on both the normal and the error path; `total_duration`, however, is zero
only on the error path — on normal exhaustion it carries the elapsed
seconds truncated to nanoseconds. -/
theorem streamed_terminal_usage_zero (ts m : String) (el : ℚ)
    (chunks : List (Option String)) (cchunks : List ChatDelta)
    (o : StreamOutcome) :
    ((stream_generate ts m el chunks o).getLast?.map
        (fun r => (r.done, r.prompt_eval_count, r.eval_count)) =
      some (true, some 0, some 0)) ∧
    ((stream_generate ts m el chunks o).getLast?.map
        (fun r => r.total_duration) =
      some (some (match o with
        | .ok => ns_from_seconds el
        | .failed _ => 0))) ∧
    ((stream_chat ts m el cchunks o).getLast?.map
        (fun r => (r.done, r.prompt_eval_count, r.eval_count)) =
      some (true, some 0, some 0)) ∧
    ((stream_chat ts m el cchunks o).getLast?.map
        (fun r => r.total_duration) =
      some (some (match o with
        | .ok => ns_from_seconds el
        | .failed _ => 0))) := by
  have h0 : ns_from_seconds 0 = 0 := by norm_num [ns_from_seconds]
  refine ⟨?_, ?_, ?_, ?_⟩ <;> cases o <;>
    simp [stream_generate, stream_chat, List.getLast?_concat,
      to_ollama_generate_response, to_ollama_chat_response, h0]

/-- The texts of the records the generate pump's loop emits are exactly the
nonempty text deltas of the upstream elements, in order. -/
lemma generate_emitted_texts (ts m : String) (chunks : List (Option String)) :
    (chunks.filterMap (stream_generate_emit ts m)).map (fun r => r.response) =
      (chunks.map (fun c => c.getD "")).filter (fun s => !(s == "")) := by
  induction chunks with
  | nil => rfl
  | cons c rest ih =>
      by_cases h : c.getD "" = "" <;>
        simp [stream_generate_emit, h, to_ollama_generate_stream_chunk, ih]

/-- Dropping the empty strings from a list does not change its
concatenation. -/
lemma join_filter_nonempty (l : List String) :
    String.join (l.filter (fun s => !(s == ""))) = String.join l := by
  have key : ((l.filter (fun s => !(s == ""))).map String.data).flatten =
      (l.map String.data).flatten := by
    induction l with
    | nil => rfl
    | cons s rest ih =>
        by_cases h : s = ""
        · subst h
          simpa using ih
        · simp [h, ih]
  rw [String.join_eq, String.join_eq, key]

/-- Filtering out terminal records keeps exactly the texts of non-terminal
records, when the input list is all non-terminal. -/
lemma filterMap_nonterminal (l : List GenerateRecord)
    (h : ∀ r ∈ l, r.done = false) :
    l.filterMap (fun r => if r.done then none else some r.response) =
      l.map (fun r => r.response) := by
  induction l with
  | nil => rfl
  | cons a t ih =>
      simp [List.filterMap_cons, h a (by simp),
        ih (fun r hr => h r (by simp [hr]))]

/-- C4: for a fixed upstream output, the concatenation of the text fields of
all non-terminal records produced by the streaming path equals the single
text field the buffered path produces for the same output (whose complete
content is the concatenation of its deltas). -/
theorem stream_matches_buffered_text (ts ts2 m : String) (el el2 : ℚ)
    (p c : Int) (chunks : List (Option String)) :
    String.join ((stream_generate ts m el chunks .ok).filterMap
        (fun r => if r.done then none else some r.response)) =
      (generate_buffered ts2 m el2
          (some (String.join (chunks.map (fun c0 => c0.getD "")))) p c).response
    := by
  have hterm : (fun r => if r.done then none else some r.response)
      (to_ollama_generate_response ts "" m el 0 0) = none := rfl
  have h1 : (stream_generate ts m el chunks .ok).filterMap
      (fun r => if r.done then none else some r.response) =
      (chunks.filterMap (stream_generate_emit ts m)).map
        (fun r => r.response) := by
    simp only [stream_generate, List.filterMap_append, List.filterMap_cons,
      hterm, List.filterMap_nil, List.append_nil]
    exact filterMap_nonterminal _
      (fun r hr => generate_emitted_done_false ts m chunks r hr)
  rw [h1, generate_emitted_texts, join_filter_nonempty]
  rfl

/-- Inserting a binding for a different key anywhere in a dict does not
change a lookup. -/
lemma dictGet_insert_other {α : Type} (l1 l2 : List (String × α))
    (k k' : String) (v : α) (h : (k == k') = false) :
    dictGet (l1 ++ (k, v) :: l2) k' = dictGet (l1 ++ l2) k' := by
  simp only [dictGet, List.find?_append, List.find?_cons, h]

/-- The config overlay touches only the reasoning/thinking fields. -/
lemma apply_config_options_untouched (p : LiteLLMParams)
    (cfg : LiteLLMConfig) :
    (apply_config_options p cfg).temperature = p.temperature ∧
    (apply_config_options p cfg).max_tokens = p.max_tokens ∧
    (apply_config_options p cfg).top_p = p.top_p ∧
    (apply_config_options p cfg).response_format = p.response_format ∧
    (apply_config_options p cfg).tools = p.tools := by
  rcases h1 : cfg.reasoning_effort with _ | s <;>
    rcases h2 : cfg.thinking_budget with _ | b <;>
      simp only [apply_config_options, h1, h2] <;>
        (repeat' split) <;> simp

/-- On params whose reasoning/thinking fields are unset — as the request
stage always leaves them — the overlay's result on those fields depends
only on the entry. -/
lemma apply_config_options_overlay (p : LiteLLMParams) (cfg : LiteLLMConfig)
    (hre : p.reasoning_effort = none) (hth : p.thinking = none) :
    (apply_config_options p cfg).reasoning_effort =
      (apply_config_options {} cfg).reasoning_effort ∧
    (apply_config_options p cfg).thinking =
      (apply_config_options {} cfg).thinking := by
  rcases h1 : cfg.reasoning_effort with _ | s <;>
    rcases h2 : cfg.thinking_budget with _ | b <;>
      simp only [apply_config_options, h1, h2] <;>
        (repeat' split) <;> simp [hre, hth]

/-- The options a resolved generate request hands upstream, explicitly. -/
lemma callOptions_generate (st : ConfigState) (gbody : GenerateBody)
    (cfg : LiteLLMConfig) (hg : get_litellm_config st gbody.model = some cfg) :
    callOptions (generate_route st gbody) =
      some (apply_config_options
        (if gbody.format == some "json" then
          { build_options_fn gbody.options with
              response_format := some "json_object" }
        else build_options_fn gbody.options) cfg) := by
  simp only [generate_route, hg]
  split <;> rfl

/-- The options a resolved chat request hands upstream, explicitly. -/
lemma callOptions_chat (st : ConfigState) (cbody : ChatBody)
    (cfg : LiteLLMConfig) (hc : get_litellm_config st cbody.model = some cfg) :
    callOptions (chat_route st cbody) =
      some (apply_config_options
        (if truthyList cbody.tools then
          { (if cbody.format == some "json" then
              { build_options_fn cbody.options with
                  response_format := some "json_object" }
            else build_options_fn cbody.options) with tools := cbody.tools }
        else
          (if cbody.format == some "json" then
            { build_options_fn cbody.options with
                response_format := some "json_object" }
          else build_options_fn cbody.options)) cfg) := by
  simp only [chat_route, hc]
  split <;> rfl

/-- C9: option building is a pure function of the request body and the
resolved entry: the three recognized generation options are copied verbatim
from the request's options object (`num_predict` under the `max_tokens`
alias), a binding for any unrecognized key is ignored wherever it occurs,
response-format is set exactly when the caller requested the structured
json format, tool definitions are attached exactly when supplied (truthy),
the entry's static reasoning-effort/thinking-budget overlay is applied last
and depends only on the entry, and an empty input yields the empty option
set. -/
theorem option_mapper_properties (options : List (String × ℚ))
    (st : ConfigState) (gbody : GenerateBody) (cbody : ChatBody)
    (cfg1 cfg2 : LiteLLMConfig)
    (hg : get_litellm_config st gbody.model = some cfg1)
    (hc : get_litellm_config st cbody.model = some cfg2) :
    ((build_options_fn options).temperature = dictGet options "temperature" ∧
      (build_options_fn options).max_tokens = dictGet options "num_predict" ∧
      (build_options_fn options).top_p = dictGet options "top_p") ∧
    (∀ (l1 l2 : List (String × ℚ)) (k : String) (v : ℚ),
      k ≠ "temperature" → k ≠ "num_predict" → k ≠ "top_p" →
      build_options_fn (l1 ++ (k, v) :: l2) = build_options_fn (l1 ++ l2)) ∧
    ((callOptions (generate_route st gbody)).map (fun p => p.response_format) =
      some (if gbody.format == some "json" then some "json_object" else none)) ∧
    ((callOptions (chat_route st cbody)).map (fun p => p.response_format) =
      some (if cbody.format == some "json" then some "json_object" else none)) ∧
    ((callOptions (chat_route st cbody)).map (fun p => p.tools) =
      some (if truthyList cbody.tools then cbody.tools else none)) ∧
    ((callOptions (generate_route st gbody)).map
        (fun p => (p.reasoning_effort, p.thinking)) =
      some ((apply_config_options {} cfg1).reasoning_effort,
        (apply_config_options {} cfg1).thinking)) ∧
    ((callOptions (chat_route st cbody)).map
        (fun p => (p.reasoning_effort, p.thinking)) =
      some ((apply_config_options {} cfg2).reasoning_effort,
        (apply_config_options {} cfg2).thinking)) ∧
    build_options_fn [] = ({} : LiteLLMParams) := by
  refine ⟨⟨rfl, rfl, rfl⟩, ?_, ?_, ?_, ?_, ?_, ?_, rfl⟩
  · intro l1 l2 k v h1 h2 h3
    simp only [build_options_fn]
    rw [dictGet_insert_other l1 l2 k "temperature" v (by simp [h1]),
      dictGet_insert_other l1 l2 k "num_predict" v (by simp [h2]),
      dictGet_insert_other l1 l2 k "top_p" v (by simp [h3])]
  · rw [callOptions_generate st gbody cfg1 hg, Option.map_some']
    rw [(apply_config_options_untouched _ cfg1).2.2.2.1]
    split <;> rfl
  · rw [callOptions_chat st cbody cfg2 hc, Option.map_some']
    rw [(apply_config_options_untouched _ cfg2).2.2.2.1]
    split <;> first | rfl | (split <;> rfl)
  · rw [callOptions_chat st cbody cfg2 hc, Option.map_some']
    rw [(apply_config_options_untouched _ cfg2).2.2.2.2]
    split <;> first | rfl | (split <;> rfl)
  · rw [callOptions_generate st gbody cfg1 hg, Option.map_some']
    have h := apply_config_options_overlay
      (if gbody.format == some "json" then
        { build_options_fn gbody.options with
            response_format := some "json_object" }
      else build_options_fn gbody.options) cfg1
      (by split <;> rfl) (by split <;> rfl)
    rw [h.1, h.2]
  · rw [callOptions_chat st cbody cfg2 hc, Option.map_some']
    have h := apply_config_options_overlay
      (if truthyList cbody.tools then
        { (if cbody.format == some "json" then
            { build_options_fn cbody.options with
                response_format := some "json_object" }
          else build_options_fn cbody.options) with tools := cbody.tools }
      else
        (if cbody.format == some "json" then
          { build_options_fn cbody.options with
              response_format := some "json_object" }
        else build_options_fn cbody.options)) cfg2
      (by split <;> (try split) <;> rfl) (by split <;> (try split) <;> rfl)
    rw [h.1, h.2]

/-- Closed instance of C9: a json-format request gets the structured
response format, and an unrecognized option key is ignored. -/
theorem option_mapper_properties_witness :
    build_options_fn ([("temperature", 1)] ++ ("seed", 7) :: []) =
      build_options_fn ([("temperature", 1)] ++ []) ∧
    (callOptions (generate_route ⟨[("m1", sampleOpenai)]⟩
        { model := "m1", format := some "json" })).map
        (fun p => p.response_format) =
      some (if (some "json" : Option String) == some "json" then
        some "json_object" else none) :=
  ⟨(option_mapper_properties [] ⟨[("m1", sampleOpenai)]⟩
      { model := "m1", format := some "json" } { model := "m1" }
      sampleOpenai sampleOpenai rfl rfl).2.1 [("temperature", 1)] [] "seed" 7
      (by decide) (by decide) (by decide),
    (option_mapper_properties [] ⟨[("m1", sampleOpenai)]⟩
      { model := "m1", format := some "json" } { model := "m1" }
      sampleOpenai sampleOpenai rfl rfl).2.2.1⟩

/-- The (external name, entry) pairs a parsed `providers.json` document
describes, in file order: one pair per model entry of each provider object. -/
def fileEntries (data : ProvidersData) : List (String × LiteLLMConfig) :=
  data.flatMap
    (fun pc => pc.2.models.map (fun m => (m.name, entryFromFile pc.1 pc.2 m)))

/-- The nested reload loops are one fold of dict assignment over the file's
flattened entry list. -/
lemma buildProviders_eq_foldl (data : ProvidersData) :
    buildProviders data =
      (fileEntries data).foldl (fun a p => dictInsert a p.1 p.2) [] := by
  suffices h : ∀ (acc : List (String × LiteLLMConfig)),
      data.foldl
        (fun acc pc =>
          pc.2.models.foldl
            (fun acc2 m => dictInsert acc2 m.name (entryFromFile pc.1 pc.2 m))
            acc)
        acc =
      (fileEntries data).foldl (fun a p => dictInsert a p.1 p.2) acc from
    h []
  induction data with
  | nil => intro acc; rfl
  | cons pc rest ih =>
      intro acc
      simp only [List.foldl_cons, fileEntries, List.flatMap_cons,
        List.foldl_append, List.foldl_map]
      exact ih _

/-- Folding dict assignment over bindings whose keys collide neither with
each other nor with the accumulator just appends them. -/
lemma foldl_dictInsert_nodup {α : Type} (l acc : List (String × α))
    (h : ((acc ++ l).map Prod.fst).Nodup) :
    l.foldl (fun a p => dictInsert a p.1 p.2) acc = acc ++ l := by
  induction l generalizing acc with
  | nil => simp
  | cons p rest ih =>
      have hkey : p.1 ∉ acc.map Prod.fst := by
        intro hmem
        exact (List.nodup_append.mp (by simpa using h)).2.2 hmem (by simp)
      have hnotin : acc.any (fun q => q.1 == p.1) = false := by
        simp only [Bool.eq_false_iff, ne_eq, List.any_eq_true]
        rintro ⟨q, hq, hq1⟩
        exact hkey (List.mem_map.mpr ⟨q, hq, eq_of_beq hq1⟩)
      have hins : dictInsert acc p.1 p.2 = acc ++ [p] := by
        simp [dictInsert, hnotin]
      have hshift : ((acc ++ [p] ++ rest).map Prod.fst).Nodup := by
        rw [List.append_assoc]
        exact h
      rw [List.foldl_cons, hins, ih (acc ++ [p]) hshift]
      simp

/-- Under unique external names, the reload builds exactly the file's entry
list. -/
lemma buildProviders_nodup (data : ProvidersData)
    (h : ((fileEntries data).map Prod.fst).Nodup) :
    buildProviders data = fileEntries data := by
  rw [buildProviders_eq_foldl]
  simpa using foldl_dictInsert_nodup (fileEntries data) [] (by simpa using h)

/-- In a dict with pairwise-distinct keys, every binding is found. -/
lemma dictGet_of_mem_nodup {α : Type} (l : List (String × α)) (p : String × α)
    (hp : p ∈ l) (h : (l.map Prod.fst).Nodup) : dictGet l p.1 = some p.2 := by
  induction l with
  | nil => cases hp
  | cons a t ih =>
      have h' : a.1 ∉ t.map Prod.fst ∧ (t.map Prod.fst).Nodup := by
        rw [List.map_cons, List.nodup_cons] at h
        exact h
      rcases List.mem_cons.mp hp with he | hm
      · subst he
        simp [dictGet, List.find?_cons_of_pos]
      · have hne : (a.1 == p.1) = false := by
          by_cases hb : a.1 = p.1
          · exact absurd (hb ▸ List.mem_map.mpr ⟨p, hm, rfl⟩) h'.1
          · simpa using hb
        simpa [dictGet, List.find?_cons, hne] using ih hm h'.2

/-- C6: after a successful reload over a file whose external model names are
unique (the spec's standing invariant), resolving any name present in the
file returns exactly the entry built from that file occurrence — provider
tag (provider object's tag, defaulting to its id), upstream model name, api
key, base URL, reasoning-effort, thinking-budget and additional params —
and resolving any name not present returns NotFound. -/
theorem resolve_matches_reloaded_file (st : ConfigState)
    (data : ProvidersData)
    (hnodup : ((fileEntries data).map Prod.fst).Nodup) :
    (∀ pid pcfg m, (pid, pcfg) ∈ data → m ∈ pcfg.models →
      get_litellm_config (reload_providers st (.parsed data)) m.name =
        some (entryFromFile pid pcfg m)) ∧
    (∀ n, (∀ p ∈ fileEntries data, p.1 ≠ n) →
      get_litellm_config (reload_providers st (.parsed data)) n = none) := by
  have hb : buildProviders data = fileEntries data :=
    buildProviders_nodup data hnodup
  constructor
  · intro pid pcfg m hpc hm
    have hmem : (m.name, entryFromFile pid pcfg m) ∈ fileEntries data := by
      simp only [fileEntries, List.mem_flatMap]
      exact ⟨(pid, pcfg), hpc, List.mem_map.mpr ⟨m, hm, rfl⟩⟩
    simpa [reload_providers, get_litellm_config, hb] using
      dictGet_of_mem_nodup (fileEntries data) (m.name, entryFromFile pid pcfg m)
        hmem hnodup
  · intro n hn
    simp only [reload_providers, get_litellm_config, hb, dictGet,
      Option.map_eq_none']
    exact List.find?_eq_none.mpr (fun p hp => by simpa using hn p hp)

/-- Closed instance of C6: one provider, one model; its name resolves to the
file entry, an unknown name resolves to nothing. -/
theorem resolve_matches_reloaded_file_witness :
    get_litellm_config
        (reload_providers ⟨[]⟩
          (.parsed [("openai",
            { models := [{ name := "m1", model_name := "gpt-x" }] })]))
        ("m1" : String) =
      some (entryFromFile "openai"
        { models := [{ name := "m1", model_name := "gpt-x" }] }
        { name := "m1", model_name := "gpt-x" }) ∧
    get_litellm_config
        (reload_providers ⟨[]⟩
          (.parsed [("openai",
            { models := [{ name := "m1", model_name := "gpt-x" }] })]))
        "zz" = none :=
  ⟨(resolve_matches_reloaded_file ⟨[]⟩
      [("openai", { models := [{ name := "m1", model_name := "gpt-x" }] })]
      (by decide)).1 "openai"
      { models := [{ name := "m1", model_name := "gpt-x" }] }
      { name := "m1", model_name := "gpt-x" } (by decide) (by decide),
    (resolve_matches_reloaded_file ⟨[]⟩
      [("openai", { models := [{ name := "m1", model_name := "gpt-x" }] })]
      (by decide)).2 "zz" (by decide)⟩

/-- Closed instance of C10: an absent stream flag streams. -/
theorem stream_defaults_to_true_witness :
    isStream (generate_route ⟨[("m1", sampleOpenai)]⟩ { model := "m1" }) =
      true :=
  (stream_defaults_to_true ⟨[("m1", sampleOpenai)]⟩
      { model := "m1" } { model := "m1" }
      sampleOpenai sampleOpenai rfl rfl).1 (Or.inl rfl)

end OllamaProxy
